import Mathlib

/-!
# Verification of the interview-practice application

Shallow embedding of the server routes, the AI evaluation controller, and the
client-side interview session pipeline, together with theorems settling the
specification's testable properties against the code.

Conventions:
* Mongo ObjectIds are modelled as `String`.
* JavaScript `Date` values are modelled as epoch milliseconds (`Int`).
* JavaScript numbers in the evaluation pipeline are modelled as `ℚ` (the
  computations involved are small decimal arithmetic).
* Each Express handler becomes a pure function from its inputs (looked-up
  documents, the authenticated user, the request body, outcomes of external
  calls) to an explicit result value; distinct error responses of the source
  become distinct constructors.
-/

namespace AiInterview

/-! ## Interview model and lifecycle routes (`server/models/Interview.js`,
`server/routes/interviews.js`) -/

/-- The `status` enum of `InterviewSchema`:
`['scheduled', 'in-progress', 'completed', 'cancelled']`. -/
inductive IStatus
  | scheduled
  | inProgress
  | completed
  | cancelled
deriving DecidableEq, Repr

/-- Position of a status in the forward order
`scheduled → in-progress → completed`, with `cancelled` as the terminal
side-exit. -/
def IStatus.rank : IStatus → Nat
  | .scheduled => 0
  | .inProgress => 1
  | .completed => 2
  | .cancelled => 3

/-- An interview document (the fields used by the lifecycle routes).
`scheduledStartMs` is the epoch value of
`new Date(scheduledDate + 'T' + scheduledTime)`. -/
structure InterviewRec where
  candidate : String
  status : IStatus
  scheduledStartMs : Int
  durationMin : Nat
deriving DecidableEq, Repr

/-- Roles of the auth middleware: `admin` or regular user. -/
inductive URole
  | admin
  | user
deriving DecidableEq, Repr

/-- The authenticated requester (`req.user`). -/
structure UserRec where
  id : String
  role : URole
deriving DecidableEq, Repr

/-- `interview.duration || 30`: a falsy (zero) duration falls back to 30. -/
def effectiveDuration (itv : InterviewRec) : Nat :=
  if itv.durationMin = 0 then 30 else itv.durationMin

/-- `scheduledStart.getTime() + (interview.duration || 30) * 60000`. -/
def scheduledEndMs (itv : InterviewRec) : Int :=
  itv.scheduledStartMs + (effectiveDuration itv : Int) * 60000

/-- Result of `POST /interviews/:id/start`; one constructor per distinct
response of the handler. -/
inductive StartResult
  | notFound
  | notAuthorized
  | notStartedYet
  | windowPassed
  | badState
  | started (itv : InterviewRec)
deriving DecidableEq, Repr

/-- HTTP status code attached to each `StartResult` by the handler. -/
def StartResult.httpStatus : StartResult → Nat
  | .notFound => 404
  | .notAuthorized => 403
  | .notStartedYet => 403
  | .windowPassed => 403
  | .badState => 400
  | .started _ => 200

/-- `router.post('/:id/start')` from `server/routes/interviews.js`:
not-found check, then ownership check (`candidateId !== req.user.id`),
then the two window checks (`now < scheduledStart`, `now > scheduledEnd`),
then the state check (`status !== 'scheduled'`), and finally the transition
to `in-progress`. -/
def startInterview (itv? : Option InterviewRec) (u : UserRec) (nowMs : Int) :
    StartResult :=
  match itv? with
  | none => .notFound
  | some itv =>
    if itv.candidate ≠ u.id then .notAuthorized
    else if nowMs < itv.scheduledStartMs then .notStartedYet
    else if nowMs > scheduledEndMs itv then .windowPassed
    else if itv.status ≠ .scheduled then .badState
    else .started { itv with status := .inProgress }

/-- Request body of `PUT /interviews/:id`, restricted to the updatable fields
the embedding tracks; a `none` field is absent from `req.body`. -/
structure InterviewUpdateBody where
  status : Option IStatus := none
  scheduledStartMs : Option Int := none
  durationMin : Option Nat := none
deriving DecidableEq, Repr

/-- The candidate whitelist of `PUT /interviews/:id`:
`allowedUpdates = ['status']`, every other key of `req.body` is deleted. -/
def filterCandidateUpdates (b : InterviewUpdateBody) : InterviewUpdateBody :=
  { status := b.status }

/-- `Interview.findByIdAndUpdate(id, req.body)`: each present field overwrites
the stored one. -/
def applyInterviewUpdate (itv : InterviewRec) (b : InterviewUpdateBody) :
    InterviewRec :=
  { itv with
    status := b.status.getD itv.status
    scheduledStartMs := b.scheduledStartMs.getD itv.scheduledStartMs
    durationMin := b.durationMin.getD itv.durationMin }

/-- Result of `PUT /interviews/:id`. -/
inductive InterviewUpdateResult
  | notFound
  | notAuthorized
  | updated (itv : InterviewRec)
deriving DecidableEq, Repr

/-- `router.put('/:id')` from `server/routes/interviews.js`: not-found check,
owner-or-admin check, candidate whitelist, then `findByIdAndUpdate`. -/
def updateInterview (itv? : Option InterviewRec) (u : UserRec)
    (b : InterviewUpdateBody) : InterviewUpdateResult :=
  match itv? with
  | none => .notFound
  | some itv =>
    if itv.candidate ≠ u.id ∧ u.role ≠ .admin then .notAuthorized
    else
      let body := if u.role ≠ .admin then filterCandidateUpdates b else b
      .updated (applyInterviewUpdate itv body)

end AiInterview

namespace AiInterview

/-- A concrete interview used by the closed counterexample theorems:
scheduled at epoch 0 for 30 minutes, owned by candidate `"cand"`. -/
def itvSample : InterviewRec :=
  { candidate := "cand", status := .scheduled, scheduledStartMs := 0,
    durationMin := 30 }

/-- A completed interview owned by `"cand"`. -/
def itvDone : InterviewRec :=
  { candidate := "cand", status := .completed, scheduledStartMs := 0,
    durationMin := 30 }

/-- C1 (counterexample): the claim says a `start` call outside the scheduled
window fails with a window-violation error for every caller role.  For an
admin caller who is not the owning candidate, calling one minute before the
window, the handler instead fails with the ownership error `Not authorized`
(the ownership check runs before the window checks), which is neither of the
two window-violation errors. -/
theorem start_outside_window_nonowner_gets_auth_error :
    startInterview (some itvSample) ⟨"admin1", .admin⟩ (-60000) =
      .notAuthorized
    ∧ StartResult.notAuthorized ≠ .notStartedYet
    ∧ StartResult.notAuthorized ≠ .windowPassed := by
  decide

/-- C1 (amended): for the owning candidate — whatever the caller's role — a
`start` call strictly before `scheduledStart` fails with `notStartedYet` and a
call strictly after `scheduledStart + duration` fails with `windowPassed`;
a caller who is not the owning candidate always fails with `notAuthorized`;
and inside the window the owning candidate of a `scheduled` interview succeeds
and the interview's status becomes `in-progress`. -/
theorem start_window_enforced (itv : InterviewRec) (u : UserRec) (now : Int) :
    (itv.candidate = u.id → now < itv.scheduledStartMs →
      startInterview (some itv) u now = .notStartedYet)
    ∧ (itv.candidate = u.id → scheduledEndMs itv < now →
      startInterview (some itv) u now = .windowPassed)
    ∧ (itv.candidate ≠ u.id →
      startInterview (some itv) u now = .notAuthorized)
    ∧ (itv.candidate = u.id → itv.scheduledStartMs ≤ now →
      now ≤ scheduledEndMs itv → itv.status = .scheduled →
      startInterview (some itv) u now =
        .started { itv with status := .inProgress }) := by
  refine ⟨?_, ?_, ?_, ?_⟩
  · intro hown hlt
    simp [startInterview, hown, hlt]
  · intro hown hgt
    have hdur : (0 : Int) < (effectiveDuration itv : Int) := by
      have : effectiveDuration itv ≠ 0 := by
        unfold effectiveDuration; split <;> omega
      exact_mod_cast Nat.pos_of_ne_zero this
    have hnl : ¬ now < itv.scheduledStartMs := by
      simp only [scheduledEndMs] at hgt
      omega
    simp [startInterview, hown, hnl, hgt]
  · intro hown
    simp [startInterview, hown]
  · intro hown hle hge hst
    simp [startInterview, hown, not_lt.mpr hle, not_lt.mpr hge, hst]

/-- C1 (witness): the spec's scenario — interview scheduled at `t₀` for 30
minutes; a call by the owning candidate one minute early is rejected as
`notStartedYet`, and a call 15 minutes in succeeds with status
`in-progress`. -/
theorem start_window_enforced_witness :
    startInterview (some itvSample) ⟨"cand", .user⟩ (-60000) = .notStartedYet
    ∧ startInterview (some itvSample) ⟨"cand", .user⟩ 900000 =
        .started { itvSample with status := .inProgress } := by
  exact ⟨(start_window_enforced itvSample ⟨"cand", .user⟩ (-60000)).1
      rfl (by decide),
    (start_window_enforced itvSample ⟨"cand", .user⟩ 900000).2.2.2
      rfl (by decide) (by decide) rfl⟩

/-- C2 (counterexample): the claim says no server operation can move an
interview's status to an earlier state of the order
`scheduled → in-progress → completed`.  But `PUT /interviews/:id` lets the
owning candidate send `{status: 'scheduled'}` for a `completed` interview and
the update succeeds, regressing the status by two steps. -/
theorem put_interview_regresses_status :
    updateInterview (some itvDone) ⟨"cand", .user⟩ { status := some .scheduled }
      = .updated { itvDone with status := .scheduled }
    ∧ IStatus.rank .scheduled < IStatus.rank .completed := by
  decide

/-- C2 (amended): the `start` endpoint only ever moves a `scheduled`
interview forward to `in-progress`, but `PUT /interviews/:id` places no
constraint relating the new status to the old: any requested enum status is
stored verbatim for the owning candidate (and likewise for an admin), so the
forward-only property is not enforced by the server. -/
theorem status_transitions (itv : InterviewRec) (u : UserRec) (now : Int)
    (st : IStatus) :
    (∀ r, startInterview (some itv) u now = .started r →
      itv.status = .scheduled ∧ r.status = .inProgress)
    ∧ (itv.candidate = u.id →
      updateInterview (some itv) u { status := some st } =
        .updated { itv with status := st }) := by
  constructor
  · intro r hr
    simp only [startInterview] at hr
    by_cases h1 : itv.candidate ≠ u.id
    · simp [h1] at hr
    · by_cases h2 : now < itv.scheduledStartMs
      · simp [h1, h2] at hr
      · by_cases h3 : scheduledEndMs itv < now
        · simp [h1, h2, h3] at hr
        · by_cases h4 : itv.status = .scheduled
          · simp [h1, h2, h3, h4] at hr
            exact ⟨h4, hr ▸ rfl⟩
          · simp [h1, h2, h3, h4] at hr
  · intro hown
    have hcond : ¬(itv.candidate ≠ u.id ∧ u.role ≠ URole.admin) := by
      simp [hown]
    by_cases hrole : u.role = URole.admin <;>
      simp [updateInterview, hcond, hrole, hown, filterCandidateUpdates,
        applyInterviewUpdate]

/-- C2 (witness): instantiating `status_transitions` at the sample interview:
a successful start is exactly the forward move, and a candidate `PUT` of
`in-progress` is stored verbatim. -/
theorem status_transitions_witness :
    (∀ r, startInterview (some itvSample) ⟨"cand", .user⟩ 0 = .started r →
      itvSample.status = .scheduled ∧ r.status = .inProgress)
    ∧ updateInterview (some itvSample) ⟨"cand", .user⟩
        { status := some .inProgress } =
        .updated { itvSample with status := .inProgress } := by
  exact ⟨(status_transitions itvSample ⟨"cand", .user⟩ 0 .inProgress).1,
    (status_transitions itvSample ⟨"cand", .user⟩ 0 .inProgress).2 rfl⟩

end AiInterview

namespace AiInterview

/-! ## Answer model and persistence routes (`server/models/Answer.js`,
`server/routes/answers.js`) -/

/-- The four-axis rubric of `AnswerSchema.criteria`. -/
structure Criteria where
  technicalAccuracy : ℚ
  completeness : ℚ
  clarity : ℚ
  examples : ℚ
deriving DecidableEq, Repr

/-- An answer document.  Optional string fields of the schema are modelled as
plain strings (`""` for absent); `score` is genuinely optional. -/
structure AnswerRec where
  interview : String
  question : String
  audioUrl : String
  transcript : String
  code : String
  codeLanguage : String
  score : Option ℚ
  feedback : String
  criteria : Criteria
deriving DecidableEq, Repr

/-- Mongoose range validators `min: 0, max: 10` on the criteria fields. -/
def validCriteria (c : Criteria) : Bool :=
  decide (0 ≤ c.technicalAccuracy ∧ c.technicalAccuracy ≤ 10
    ∧ 0 ≤ c.completeness ∧ c.completeness ≤ 10
    ∧ 0 ≤ c.clarity ∧ c.clarity ≤ 10
    ∧ 0 ≤ c.examples ∧ c.examples ≤ 10)

/-- Mongoose range validator `min: 0, max: 10` on `score`. -/
def validScore : Option ℚ → Bool
  | none => true
  | some s => decide (0 ≤ s ∧ s ≤ 10)

/-- Validators run by `Answer.create` on a full document. -/
def validAnswerDoc (a : AnswerRec) : Bool :=
  validScore a.score && validCriteria a.criteria

/-- `x.interview == i && x.question == q`: the upsert key of the batch
endpoint. -/
def matchesPair (i q : String) (x : AnswerRec) : Bool :=
  x.interview == i && x.question == q

/-- Number of stored answers for an (interview, question) pair. -/
def pairCount (db : List AnswerRec) (i q : String) : Nat :=
  (db.filter (matchesPair i q)).length

/-- The server keeps at most one answer per (interview, question) pair. -/
def atMostOnePerPair (db : List AnswerRec) : Prop :=
  ∀ i q, pairCount db i q ≤ 1

/-- Result of `POST /answers`. -/
inductive PostAnswerResult
  | notFound
  | notAuthorized
  | validationError
  | created (a : AnswerRec)
deriving DecidableEq, Repr

/-- `router.post('/')` from `server/routes/answers.js`: interview lookup,
owner-or-admin check, then an unconditional `Answer.create(req.body)` — there
is no existing-answer lookup and no unique index on (interview, question).
Returns the response and the new answer collection. -/
def postAnswer (itv? : Option InterviewRec) (u : UserRec)
    (db : List AnswerRec) (body : AnswerRec) :
    PostAnswerResult × List AnswerRec :=
  match itv? with
  | none => (.notFound, db)
  | some itv =>
    if itv.candidate ≠ u.id ∧ u.role ≠ .admin then (.notAuthorized, db)
    else if validAnswerDoc body then (.created body, db ++ [body])
    else (.validationError, db)

/-- `Answer.findOneAndUpdate({interview, question}, ans, {upsert: true})`:
replace the first stored answer with the same (interview, question) pair, or
append when none exists. -/
def upsertAnswer : List AnswerRec → AnswerRec → List AnswerRec
  | [], a => [a]
  | x :: xs, a =>
    if matchesPair a.interview a.question x then a :: xs
    else x :: upsertAnswer xs a

/-- `router.post('/batch')` from `server/routes/answers.js`: upsert each
submitted answer in order. -/
def batchUpsert (db : List AnswerRec) (answers : List AnswerRec) :
    List AnswerRec :=
  answers.foldl upsertAnswer db

/-- Request body of `PUT /answers/:id`; `none` means the key is absent. -/
structure AnswerUpdateBody where
  audioUrl : Option String := none
  transcript : Option String := none
  code : Option String := none
  codeLanguage : Option String := none
  score : Option ℚ := none
  feedback : Option String := none
  criteria : Option Criteria := none
deriving DecidableEq, Repr

/-- Admin whitelist of `PUT /answers/:id`:
`allowedUpdates = ['score', 'feedback', 'criteria']`. -/
def adminWhitelist (b : AnswerUpdateBody) : AnswerUpdateBody :=
  { score := b.score, feedback := b.feedback, criteria := b.criteria }

/-- Candidate whitelist of `PUT /answers/:id`:
`allowedUpdates = ['audioUrl', 'transcript', 'code', 'codeLanguage']`. -/
def candidateWhitelist (b : AnswerUpdateBody) : AnswerUpdateBody :=
  { audioUrl := b.audioUrl, transcript := b.transcript, code := b.code,
    codeLanguage := b.codeLanguage }

/-- Validators run on the update paths of `findByIdAndUpdate`/`save`. -/
def validAnswerUpdate (b : AnswerUpdateBody) : Bool :=
  validScore b.score &&
    (match b.criteria with
     | none => true
     | some c => validCriteria c)

/-- Apply a (whitelisted) update body to a stored answer: present fields
overwrite, absent fields are untouched; `criteria` is set separately by the
handler but with the same effect. -/
def applyAnswerUpdate (a : AnswerRec) (b : AnswerUpdateBody) : AnswerRec :=
  { a with
    audioUrl := b.audioUrl.getD a.audioUrl
    transcript := b.transcript.getD a.transcript
    code := b.code.getD a.code
    codeLanguage := b.codeLanguage.getD a.codeLanguage
    score := match b.score with | none => a.score | some s => some s
    feedback := b.feedback.getD a.feedback
    criteria := b.criteria.getD a.criteria }

/-- Result of `PUT /answers/:id`. -/
inductive PutAnswerResult
  | notFound
  | lookupError
  | notAuthorized
  | validationError
  | updated (a : AnswerRec)
deriving DecidableEq, Repr

/-- `router.put('/:id')` from `server/routes/answers.js`: admins are
restricted to score/feedback/criteria; the interview's candidate to
audioUrl/transcript/code/codeLanguage; anyone else is rejected.  A non-admin
request whose interview lookup fails throws and is reported as a 400. -/
def putAnswer (ans? : Option AnswerRec) (itv? : Option InterviewRec)
    (u : UserRec) (b : AnswerUpdateBody) : PutAnswerResult :=
  match ans? with
  | none => .notFound
  | some a =>
    if u.role = .admin then
      let body := adminWhitelist b
      if validAnswerUpdate body then .updated (applyAnswerUpdate a body)
      else .validationError
    else
      match itv? with
      | none => .lookupError
      | some itv =>
        if itv.candidate = u.id then
          let body := candidateWhitelist b
          if validAnswerUpdate body then .updated (applyAnswerUpdate a body)
          else .validationError
        else .notAuthorized

end AiInterview

namespace AiInterview

/-- Upserting an answer leaves the count of every other
(interview, question) pair unchanged. -/
theorem pairCount_upsert_ne (db : List AnswerRec) (a : AnswerRec)
    (i q : String) (h : ¬(a.interview = i ∧ a.question = q)) :
    pairCount (upsertAnswer db a) i q = pairCount db i q := by
  have ha : matchesPair i q a = false := by
    simp only [matchesPair, Bool.and_eq_true, beq_iff_eq, ← Bool.not_eq_true]
    intro hc
    exact h ⟨by simpa using hc.1, by simpa using hc.2⟩
  induction db with
  | nil => simp [upsertAnswer, pairCount, ha]
  | cons x xs ih =>
    by_cases hx : matchesPair a.interview a.question x
    · have hxother : matchesPair i q x = false := by
        simp only [matchesPair, Bool.and_eq_true, beq_iff_eq,
          ← Bool.not_eq_true] at hx ⊢
        intro hc
        exact h ⟨by rw [← hx.1, hc.1], by rw [← hx.2, hc.2]⟩
      simp [upsertAnswer, hx, pairCount, ha, hxother]
    · have ih' : pairCount (upsertAnswer xs a) i q = pairCount xs i q := ih
      simp only [upsertAnswer, hx, if_false, Bool.false_eq_true, pairCount,
        List.filter_cons] at ih' ⊢
      cases hxq : matchesPair i q x <;> simp [hxq, ih']

/-- Upserting an answer into a collection that holds at most one answer for
its (interview, question) pair leaves exactly one answer for that pair. -/
theorem pairCount_upsert_self (db : List AnswerRec) (a : AnswerRec)
    (h : pairCount db a.interview a.question ≤ 1) :
    pairCount (upsertAnswer db a) a.interview a.question = 1 := by
  have ha : matchesPair a.interview a.question a = true := by
    simp [matchesPair]
  induction db with
  | nil => simp [upsertAnswer, pairCount, ha]
  | cons x xs ih =>
    by_cases hx : matchesPair a.interview a.question x
    · have hxs : (xs.filter (matchesPair a.interview a.question)).length = 0 := by
        simp only [pairCount, List.filter_cons, hx, if_true,
          List.length_cons] at h
        omega
      simp only [upsertAnswer, hx, if_true, pairCount, List.filter_cons, ha,
        List.length_cons]
      omega
    · have hxs : pairCount xs a.interview a.question ≤ 1 := by
        simp only [pairCount, List.filter_cons, hx, Bool.false_eq_true,
          if_false] at h
        exact h
      have ih' := ih hxs
      simp only [upsertAnswer, hx, if_false, Bool.false_eq_true, pairCount,
        List.filter_cons] at ih' ⊢
      simp [hx, ih']

/-- A single upsert preserves the at-most-one-answer-per-pair invariant. -/
theorem atMostOne_upsert (db : List AnswerRec) (a : AnswerRec)
    (h : atMostOnePerPair db) : atMostOnePerPair (upsertAnswer db a) := by
  intro i q
  by_cases hp : a.interview = i ∧ a.question = q
  · obtain ⟨hi, hq⟩ := hp
    subst hi; subst hq
    exact le_of_eq (pairCount_upsert_self db a (h _ _))
  · rw [pairCount_upsert_ne db a i q hp]
    exact h i q

/-- C9 (amended): the batch endpoint's upsert, keyed by
(interview, question), preserves the at-most-one-answer-per-pair invariant:
re-submitting a pair that already has a stored answer updates it in place
rather than creating a second one. -/
theorem batch_upsert_preserves_at_most_one (db : List AnswerRec)
    (answers : List AnswerRec) (h : atMostOnePerPair db) :
    atMostOnePerPair (batchUpsert db answers) := by
  induction answers generalizing db with
  | nil => simpa [batchUpsert] using h
  | cons a rest ih =>
    simpa [batchUpsert] using ih (upsertAnswer db a) (atMostOne_upsert db a h)

/-- A concrete answer for interview `"i1"`, question `"q1"`. -/
def ansSample : AnswerRec :=
  { interview := "i1", question := "q1", audioUrl := "", transcript := "t",
    code := "", codeLanguage := "javascript", score := some 7, feedback := "",
    criteria := ⟨7, 7, 7, 7⟩ }

/-- An interview in progress owned by `"cand"`, the interview the sample
answers belong to. -/
def itvLive : InterviewRec :=
  { candidate := "cand", status := .inProgress, scheduledStartMs := 0,
    durationMin := 30 }

/-- C9 (witness for the amended claim): batch-upserting the same
(interview, question) pair twice into an empty collection leaves at most one
answer per pair. -/
theorem batch_upsert_preserves_at_most_one_witness :
    atMostOnePerPair (batchUpsert [] [ansSample, ansSample]) :=
  batch_upsert_preserves_at_most_one [] [ansSample, ansSample]
    (fun i q => by simp [pairCount])

/-- C9 (counterexample): the claim says every answer-persistence operation
updates an existing answer for the same (interview, question) pair instead of
creating a second one.  But `POST /answers` calls `Answer.create`
unconditionally and the schema has no unique index, so submitting the same
answer twice through it stores two answers for the pair. -/
theorem post_answer_creates_duplicate :
    pairCount
      (postAnswer (some itvLive) ⟨"cand", .user⟩
        (postAnswer (some itvLive) ⟨"cand", .user⟩ [] ansSample).2
        ansSample).2
      "i1" "q1" = 2 := by
  decide

/-- C10: `PUT /answers/:id` is field-whitelisted by role.  A non-admin
request by the interview's candidate can only change `audioUrl`,
`transcript`, `code` and `codeLanguage` — `score`, `feedback` and `criteria`
are unchanged whatever the body contains.  An admin request can only change
`score`, `feedback` and `criteria` — the candidate-entered fields are
unchanged.  In particular a candidate can never alter their own scores. -/
theorem put_answer_role_whitelists (a : AnswerRec) (itv : InterviewRec)
    (u : UserRec) (b : AnswerUpdateBody) :
    (u.role ≠ .admin → itv.candidate = u.id →
      ∀ a', putAnswer (some a) (some itv) u b = .updated a' →
        a'.score = a.score ∧ a'.feedback = a.feedback
        ∧ a'.criteria = a.criteria
        ∧ a'.audioUrl = b.audioUrl.getD a.audioUrl
        ∧ a'.transcript = b.transcript.getD a.transcript
        ∧ a'.code = b.code.getD a.code
        ∧ a'.codeLanguage = b.codeLanguage.getD a.codeLanguage)
    ∧ (u.role = .admin →
      ∀ a', putAnswer (some a) (some itv) u b = .updated a' →
        a'.audioUrl = a.audioUrl ∧ a'.transcript = a.transcript
        ∧ a'.code = a.code ∧ a'.codeLanguage = a.codeLanguage
        ∧ a'.score = (match b.score with | none => a.score | some s => some s)
        ∧ a'.feedback = b.feedback.getD a.feedback
        ∧ a'.criteria = b.criteria.getD a.criteria) := by
  constructor
  · intro hrole hown a' ha'
    simp only [putAnswer, hrole, if_false, hown, if_true] at ha'
    by_cases hv : validAnswerUpdate (candidateWhitelist b)
    · simp only [hv, if_true, PutAnswerResult.updated.injEq] at ha'
      subst ha'
      simp [applyAnswerUpdate, candidateWhitelist]
    · simp [hrole, hv] at ha'
  · intro hrole a' ha'
    simp only [putAnswer, hrole, if_true] at ha'
    by_cases hv : validAnswerUpdate (adminWhitelist b)
    · simp only [hv, if_true, PutAnswerResult.updated.injEq] at ha'
      subst ha'
      simp [applyAnswerUpdate, adminWhitelist]
    · simp [hv] at ha'

/-- C10 (witness): a candidate body trying to set `score := 0` on the sample
answer leaves the score at 7 and applies only the transcript change; an admin
body trying to set `transcript := ""` leaves the transcript alone and applies
only the score change. -/
theorem put_answer_role_whitelists_witness :
    (∀ a', putAnswer (some ansSample) (some itvLive) ⟨"cand", .user⟩
        { transcript := some "better", score := some 0 } = .updated a' →
        a'.score = ansSample.score ∧ a'.feedback = ansSample.feedback
        ∧ a'.criteria = ansSample.criteria
        ∧ a'.audioUrl = (Option.getD none ansSample.audioUrl)
        ∧ a'.transcript = (Option.getD (some "better") ansSample.transcript)
        ∧ a'.code = (Option.getD none ansSample.code)
        ∧ a'.codeLanguage = (Option.getD none ansSample.codeLanguage))
    ∧ (∀ a', putAnswer (some ansSample) (some itvLive) ⟨"boss", .admin⟩
        { transcript := some "", score := some 2 } = .updated a' →
        a'.audioUrl = ansSample.audioUrl
        ∧ a'.transcript = ansSample.transcript
        ∧ a'.code = ansSample.code
        ∧ a'.codeLanguage = ansSample.codeLanguage
        ∧ a'.score = (match some (2 : ℚ) with
            | none => ansSample.score | some s => some s)
        ∧ a'.feedback = (Option.getD none ansSample.feedback)
        ∧ a'.criteria = (Option.getD none ansSample.criteria)) := by
  exact ⟨(put_answer_role_whitelists ansSample itvLive ⟨"cand", .user⟩
      { transcript := some "better", score := some 0 }).1
      (by decide) rfl,
    (put_answer_role_whitelists ansSample itvLive ⟨"boss", .admin⟩
      { transcript := some "", score := some 2 }).2 rfl⟩

end AiInterview

namespace AiInterview

/-! ## Heuristic fallback evaluator
(`createFallbackEvaluation` in `server/controllers/ai.js`) -/

/-- `p` is a prefix of `l` (character lists). -/
def listPrefix : List Char → List Char → Bool
  | [], _ => true
  | _ :: _, [] => false
  | a :: as, b :: bs => a == b && listPrefix as bs

/-- Auxiliary scan for substring search: try `sub` at every position. -/
def containsAux (sub : List Char) : List Char → Bool
  | [] => listPrefix sub []
  | c :: cs => listPrefix sub (c :: cs) || containsAux sub cs

/-- JavaScript `s.includes(sub)`. -/
def strIncludes (s sub : String) : Bool :=
  containsAux sub.toList s.toList

/-- Counts maximal whitespace-free runs; the flag says whether the scan is
inside a word. -/
def countWordsAux : Bool → List Char → Nat
  | _, [] => 0
  | inWord, c :: cs =>
    if Char.isWhitespace c then countWordsAux false cs
    else (if inWord then 0 else 1) + countWordsAux true cs

/-- `transcript.split(/\s+/).filter(w => w.length > 0).length`: the number of
maximal non-whitespace runs. -/
def wordCountOf (t : String) : Nat :=
  countWordsAux false t.toList

/-- JavaScript `s.toLowerCase()` (character-wise lower-casing). -/
def toLowerStr (s : String) : String :=
  String.mk (s.toList.map Char.toLower)

/-- A regex word character (`\w`), for the `\b` boundary. -/
def isWordChar (c : Char) : Bool :=
  c.isAlphanum || c == '_'

/-- The greeting test
`/^\s*(hi|hello|hey|greetings|my name is)\b.*?$/i`: after optional leading
whitespace, one of the alternatives followed by a word boundary.  (The input
it is applied to is already lower-cased.) -/
def greetingMatch (t : String) : Bool :=
  let s := t.toList.dropWhile Char.isWhitespace
  ["hi", "hello", "hey", "greetings", "my name is"].any fun w =>
    let wl := w.toList
    listPrefix wl s &&
      (match s.drop wl.length with
       | [] => true
       | c :: _ => !isWordChar c)

/-- `transcript ? transcript.toLowerCase() : ''`. -/
def normalizeOpt : Option String → String
  | none => ""
  | some s => toLowerStr s

/-- JavaScript truthiness of an optional string. -/
def truthy : Option String → Bool
  | none => false
  | some s => !s.isEmpty

/-- General technical terms of the fallback evaluator. -/
def generalKeywords : List String :=
  ["algorithm", "performance", "optimization", "design", "pattern",
   "architecture", "framework", "library", "function", "method"]

/-- Question-specific keywords chosen by the `if/else if` chain over the
lower-cased question text. -/
def questionKeywordsOf (question : String) : List String :=
  let questionLower := toLowerStr question
  if strIncludes questionLower "react" then
    ["component", "jsx", "virtual dom", "state", "props", "hooks",
     "lifecycle", "render"]
  else if strIncludes questionLower "node" then
    ["event loop", "callback", "async", "express", "middleware", "server"]
  else if strIncludes questionLower "python" then
    ["list", "tuple", "dictionary", "class", "function", "django", "flask"]
  else if strIncludes questionLower "java" then
    ["class", "interface", "inheritance", "polymorphism", "spring"]
  else []

/-- Tech-stack-specific keywords (`techStack ? [...] : []`). -/
def techStackKeywordsOf (techStack : Option String) : List String :=
  if truthy techStack then
    let tsLower := toLowerStr (techStack.getD "")
    (if strIncludes tsLower "react" then
      ["component", "jsx", "virtual dom", "state", "props", "hooks"] else [])
    ++ (if strIncludes tsLower "node" then
      ["event loop", "callback", "async", "express", "middleware"] else [])
    ++ (if strIncludes tsLower "python" then
      ["list", "tuple", "dictionary", "class", "function", "django", "flask"]
      else [])
    ++ (if strIncludes tsLower "java" then
      ["class", "interface", "inheritance", "polymorphism", "spring"] else [])
  else []

/-- `Math.round` (round half away from zero is irrelevant here: all inputs
are non-negative, where JavaScript rounds half up). -/
def jsRound (q : ℚ) : ℤ := ⌊q + 1 / 2⌋

/-- The penalty test of the fallback evaluator:
`isJustGreeting || isVeryShort || isTesting` over the normalized
transcript. -/
def shortCircuitGuard (nt : String) : Bool :=
  greetingMatch nt || decide (wordCountOf nt < 20) ||
    (strIncludes (toLowerStr nt) "testing" || strIncludes (toLowerStr nt) "test")

/-- An evaluation result `{score, feedback, criteria}`. -/
structure Evaluation where
  score : ℚ
  feedback : String
  criteria : Criteria
deriving DecidableEq, Repr

/-- `createFallbackEvaluation(question, transcript, techStack, code)` from
`server/controllers/ai.js`: the deterministic keyword-overlap heuristic.
It needs no external calls.  Short/greeting/testing answers score 1 on all
axes; otherwise the score blends relevance (50%), keyword density (30%) and
length (20%). -/
def createFallbackEvaluation (question : String) (transcript : Option String)
    (techStack : Option String) (code : Option String) : Evaluation :=
  let questionKeywords := questionKeywordsOf question
  let keywords := questionKeywords ++ techStackKeywordsOf techStack
    ++ generalKeywords
  let normalizedTranscript := normalizeOpt transcript
  let normalizedCode := normalizeOpt code
  let isJustGreeting := greetingMatch normalizedTranscript
  let wordCount := wordCountOf normalizedTranscript
  let isTesting := strIncludes (toLowerStr normalizedTranscript) "testing"
    || strIncludes (toLowerStr normalizedTranscript) "test"
  if shortCircuitGuard normalizedTranscript then
    { score := 1,
      feedback := "This answer is "
        ++ (if isJustGreeting then "just a greeting"
            else if isTesting then "just a test message" else "too short")
        ++ " and does not address the technical question. A complete answer should explain the technical concepts in detail. Irrelevant answers receive a score of 1/10.",
      criteria := ⟨1, 1, 1, 1⟩ }
  else
    let questionKeywordCount := (questionKeywords.filter fun kw =>
      strIncludes normalizedTranscript (toLowerStr kw)
        || strIncludes normalizedCode (toLowerStr kw)).length
    let transcriptKeywordCount := (keywords.filter fun kw =>
      strIncludes normalizedTranscript (toLowerStr kw)).length
    let codeKeywordCount := (keywords.filter fun kw =>
      strIncludes normalizedCode (toLowerStr kw)).length
    let totalKeywordCount := transcriptKeywordCount + codeKeywordCount
    let relevanceScore : ℚ :=
      if questionKeywords.length > 0 then
        min 10 ((questionKeywordCount : ℚ) / (questionKeywords.length : ℚ) * 10)
      else 5
    let keywordScore : ℚ := min 10 ((totalKeywordCount : ℚ) / 8 * 10)
    let transcriptLength : Nat :=
      if truthy transcript then (transcript.getD "").length else 0
    let codeLength : Nat := if truthy code then (code.getD "").length else 0
    let transcriptLengthScore : ℚ := min 10 ((transcriptLength : ℚ) / 500 * 10)
    let codeLengthScore : ℚ := min 10 ((codeLength : ℚ) / 200 * 10)
    let lengthScore : ℚ :=
      if truthy transcript && truthy code then
        transcriptLengthScore * 0.6 + codeLengthScore * 0.4
      else if truthy transcript then transcriptLengthScore
      else if truthy code then codeLengthScore
      else 0
    let score : ℚ := (jsRound ((relevanceScore * 0.5 + keywordScore * 0.3
      + lengthScore * 0.2) * 10) : ℚ) / 10
    let feedback := "This evaluation was generated using a fallback system. "
      ++ (if relevanceScore < 5 then
        "The answer does not seem to directly address the question asked. "
        else "")
      ++ (if truthy transcript && truthy code then
        s!"Your verbal answer contains {transcriptKeywordCount} relevant technical terms and is {transcriptLength} characters long. Your code submission contains {codeKeywordCount} relevant technical terms and is {codeLength} characters long."
        else if truthy transcript then
        s!"Your verbal answer contains {transcriptKeywordCount} relevant technical terms and is {transcriptLength} characters long."
        else if truthy code then
        s!"Your code submission contains {codeKeywordCount} relevant technical terms and is {codeLength} characters long."
        else "")
    { score := min 10 score,
      feedback := feedback,
      criteria :=
        { technicalAccuracy := (jsRound (relevanceScore * 10) : ℚ) / 10,
          completeness := (jsRound (keywordScore * 10) : ℚ) / 10,
          clarity := if truthy transcript then min ((wordCount : ℚ) / 10) 10
            else 3,
          examples := if strIncludes normalizedTranscript "example"
              || decide (normalizedCode.length > 50) then 7 else 3 } }

/-- The penalty branch of the heuristic evaluator: whenever the
greeting/short/testing guard fires, the result is score 1 with all criteria
at 1 — the penalty takes precedence over the weighted blend. -/
theorem fallbackEval_of_guard (question : String)
    (transcript techStack code : Option String)
    (hguard : shortCircuitGuard (normalizeOpt transcript) = true) :
    (createFallbackEvaluation question transcript techStack code).score = 1
    ∧ (createFallbackEvaluation question transcript techStack code).criteria
      = ⟨1, 1, 1, 1⟩ := by
  rw [createFallbackEvaluation]
  simp only [hguard, if_true]
  exact ⟨trivial, trivial⟩

/-- C6: for every transcript with fewer than 20 words, or matching the
greeting pattern, the heuristic evaluator returns score 1 and all four
criteria equal to 1, whatever the question, tech stack and code. -/
theorem fallback_short_or_greeting_scores_one (question : String)
    (transcript techStack code : Option String)
    (h : wordCountOf (normalizeOpt transcript) < 20
      ∨ greetingMatch (normalizeOpt transcript) = true) :
    (createFallbackEvaluation question transcript techStack code).score = 1
    ∧ (createFallbackEvaluation question transcript techStack code).criteria
      = ⟨1, 1, 1, 1⟩ := by
  apply fallbackEval_of_guard
  rcases h with h | h
  · simp [shortCircuitGuard, h]
  · simp [shortCircuitGuard, h]

/-- C6 (witness): the greeting transcript `"hello there"` (also under 20
words) is scored 1 on every axis. -/
theorem fallback_short_or_greeting_scores_one_witness :
    (wordCountOf (normalizeOpt (some "hello there")) < 20
      ∨ greetingMatch (normalizeOpt (some "hello there")) = true)
    ∧ (createFallbackEvaluation "What is React?" (some "hello there")
        (some "React") none).score = 1
    ∧ (createFallbackEvaluation "What is React?" (some "hello there")
        (some "React") none).criteria = ⟨1, 1, 1, 1⟩ := by
  refine ⟨Or.inl (by decide), ?_⟩
  exact fallback_short_or_greeting_scores_one "What is React?"
    (some "hello there") (some "React") none (Or.inl (by decide))

end AiInterview

namespace AiInterview

/-! ## LLM response parsing and the evaluate endpoint
(`evaluateAnswer` in `server/controllers/ai.js`)

The generated text returned by the LLM is modelled as a list of lexical
tokens (braces, colons, commas, string and number literals, and free text),
so that the brace-matching regex `/{[\s\S]*}/` and `JSON.parse` act on the
same structure the source operates on. -/

/-- A lexical token of the model's generated text. -/
inductive Tok
  | lbrace
  | rbrace
  | colon
  | comma
  | str (s : String)
  | num (q : ℚ)
  | text (s : String)
deriving DecidableEq, Repr

/-- Is the token an opening brace? -/
def Tok.isL : Tok → Bool
  | .lbrace => true
  | _ => false

/-- Is the token a closing brace? -/
def Tok.isR : Tok → Bool
  | .rbrace => true
  | _ => false

/-- The concrete text of a token, for reproducing the raw generated text. -/
def Tok.render : Tok → String
  | .lbrace => "\x7b"
  | .rbrace => "\x7d"
  | .colon => ":"
  | .comma => ","
  | .str s => "\"" ++ s ++ "\""
  | .num q => toString q
  | .text s => s

/-- The raw generated text, re-assembled from its tokens. -/
def renderText (ts : List Tok) : String :=
  String.intercalate " " (ts.map Tok.render)

/-- `generatedText.match(/{[\s\S]*}/g)`: the greedy span from the first
opening brace to the last closing brace, `none` when there is no such
span. -/
def extractJson (ts : List Tok) : Option (List Tok) :=
  let s := ts.dropWhile (fun t => !t.isL)
  let j := (s.reverse.dropWhile (fun t => !t.isR)).reverse
  if j.isEmpty then none else some j

/-- A parsed JSON value (the subset produced by the evaluation prompts:
numbers, strings and objects). -/
inductive JVal
  | num (q : ℚ)
  | str (s : String)
  | obj (fields : List (String × JVal))

mutual

/-- Recursive-descent value parser for `JSON.parse`, fuelled by the input
length. -/
def parseVal : Nat → List Tok → Option (JVal × List Tok)
  | 0, _ => none
  | _ + 1, (Tok.num q) :: rest => some (JVal.num q, rest)
  | _ + 1, (Tok.str s) :: rest => some (JVal.str s, rest)
  | fuel + 1, Tok.lbrace :: rest =>
    match rest with
    | Tok.rbrace :: rest2 => some (JVal.obj [], rest2)
    | _ =>
      match parseMembers fuel rest with
      | some (fs, Tok.rbrace :: rest2) => some (JVal.obj fs, rest2)
      | _ => none
  | _, _ => none

/-- Parses a non-empty `"key": value [, ...]` member list. -/
def parseMembers : Nat → List Tok → Option (List (String × JVal) × List Tok)
  | 0, _ => none
  | fuel + 1, (Tok.str k) :: Tok.colon :: rest =>
    match parseVal fuel rest with
    | some (v, Tok.comma :: rest2) =>
      match parseMembers fuel rest2 with
      | some (fs, rest3) => some ((k, v) :: fs, rest3)
      | none => none
    | some (v, rest2) => some ([(k, v)], rest2)
    | none => none
  | _, _ => none

end

/-- `JSON.parse` on a token list: the whole input must parse as one
value. -/
def parseToks (ts : List Tok) : Option JVal :=
  match parseVal (ts.length + 1) ts with
  | some (v, []) => some v
  | _ => none

/-- The evaluation object `{score, feedback, criteria:{...}}` as a JSON
value. -/
def evalJVal (e : Evaluation) : JVal :=
  .obj [("score", .num e.score),
    ("feedback", .str e.feedback),
    ("criteria", .obj
      [("technicalAccuracy", .num e.criteria.technicalAccuracy),
       ("completeness", .num e.criteria.completeness),
       ("clarity", .num e.criteria.clarity),
       ("examples", .num e.criteria.examples)])]

/-- The token stream of a serialized evaluation object — a string that "is
already a valid JSON evaluation object". -/
def renderEvalToks (e : Evaluation) : List Tok :=
  [.lbrace, .str "score", .colon, .num e.score, .comma,
   .str "feedback", .colon, .str e.feedback, .comma,
   .str "criteria", .colon, .lbrace,
   .str "technicalAccuracy", .colon, .num e.criteria.technicalAccuracy,
   .comma,
   .str "completeness", .colon, .num e.criteria.completeness, .comma,
   .str "clarity", .colon, .num e.criteria.clarity, .comma,
   .str "examples", .colon, .num e.criteria.examples,
   .rbrace, .rbrace]

/-- The degraded response built when no JSON is found or parsing throws:
score 5, the raw text as feedback, all four criteria 5. -/
def neutralEval (ts : List Tok) : JVal :=
  .obj [("score", .num 5),
    ("feedback", .str (renderText ts)),
    ("criteria", .obj
      [("technicalAccuracy", .num 5), ("completeness", .num 5),
       ("clarity", .num 5), ("examples", .num 5)])]

/-- The JSON-extraction step of `evaluateAnswer`: take the first-to-last
brace span; `JSON.parse` it; on a missing span or a parse failure fall back
to the neutral score-5 response carrying the raw text. -/
def extractEvaluation (ts : List Tok) : JVal :=
  match extractJson ts with
  | none => neutralEval ts
  | some j =>
    match parseToks j with
    | some v => v
    | none => neutralEval ts

/-- The request body of `POST /ai/evaluate`. -/
structure EvalRequest where
  question : Option String
  transcript : Option String
  techStack : Option String
  code : Option String
  codeLanguage : Option String
deriving DecidableEq, Repr

/-- Response of `POST /ai/evaluate`: a 400 validation error, a 500
`ErrorResponse`, or a 200 payload with its `evaluationMethod` tag. -/
inductive EvalHttpResult
  | badRequest (msg : String)
  | serverError (msg : String)
  | ok (data : JVal) (method : String)

/-- `evaluateAnswer` from `server/controllers/ai.js`: request validation,
API-key check, then the Cohere call.  `cohereOutcome` is the outcome of the
`cohere.generate` call (`.ok` carries the generated text, `.error` any
thrown failure, including an empty generations array).  On failure the
handler returns the error to the client — the comment in the source reads
"Return the error to the client instead of falling back" — and
`createFallbackEvaluation` is never invoked. -/
def evaluateAnswer (req : EvalRequest) (hasApiKey : Bool)
    (cohereOutcome : Except String (List Tok)) : EvalHttpResult :=
  if !(truthy req.question) || (!(truthy req.transcript) && !(truthy req.code))
  then
    .badRequest "Please provide question and either transcript or code"
  else if !hasApiKey then
    .serverError "Cohere API key is not configured. Please set COHERE_API_KEY in your environment variables."
  else
    match cohereOutcome with
    | .error msg => .serverError ("Cohere AI evaluation failed: " ++ msg
        ++ ". Please check your Cohere API key and try again.")
    | .ok generatedText => .ok (extractEvaluation generatedText) "cohere"

end AiInterview

namespace AiInterview

/-- C5: the LLM-evaluation JSON extraction is total (it is a function) and
behaves as specified at both ends: (1) idempotence — a generated text that is
already exactly a serialized evaluation object is returned with exactly the
same fields; (2) a text with no brace-delimited span, and (3) a text whose
brace span fails to parse, both degrade to score 5, all four criteria 5, and
the raw text as feedback — no case throws. -/
theorem json_extraction_idempotent (e : Evaluation) (ts junk : List Tok)
    (hnone : extractJson ts = none)
    (hbad : ∀ j, extractJson junk = some j → parseToks j = none) :
    extractEvaluation (renderEvalToks e) = evalJVal e
    ∧ extractEvaluation ts =
      .obj [("score", .num 5),
        ("feedback", .str (renderText ts)),
        ("criteria", .obj
          [("technicalAccuracy", .num 5), ("completeness", .num 5),
           ("clarity", .num 5), ("examples", .num 5)])]
    ∧ extractEvaluation junk =
      .obj [("score", .num 5),
        ("feedback", .str (renderText junk)),
        ("criteria", .obj
          [("technicalAccuracy", .num 5), ("completeness", .num 5),
           ("clarity", .num 5), ("examples", .num 5)])] := by
  refine ⟨rfl, ?_, ?_⟩
  · rw [extractEvaluation, hnone]
    rfl
  · rw [extractEvaluation]
    cases hj : extractJson junk with
    | none => rfl
    | some j => simp [hbad j hj, neutralEval]

end AiInterview

namespace AiInterview

/-- A concrete well-formed evaluation for the witnesses. -/
def evalSample : Evaluation :=
  { score := 7, feedback := "Good answer", criteria := ⟨8, 7, 6, 5⟩ }

/-- C5 (witness): the three cases of `json_extraction_idempotent` at
concrete inputs — a serialized evaluation object round-trips identically; a
brace-free text and a text whose brace span has trailing junk both degrade
to the neutral score-5 response carrying the raw text. -/
theorem json_extraction_idempotent_witness :
    extractEvaluation (renderEvalToks evalSample) = evalJVal evalSample
    ∧ extractEvaluation [Tok.text "no json here"] =
      .obj [("score", .num 5),
        ("feedback", .str (renderText [Tok.text "no json here"])),
        ("criteria", .obj
          [("technicalAccuracy", .num 5), ("completeness", .num 5),
           ("clarity", .num 5), ("examples", .num 5)])]
    ∧ extractEvaluation [Tok.lbrace, Tok.rbrace, Tok.rbrace] =
      .obj [("score", .num 5),
        ("feedback", .str (renderText [Tok.lbrace, Tok.rbrace, Tok.rbrace])),
        ("criteria", .obj
          [("technicalAccuracy", .num 5), ("completeness", .num 5),
           ("clarity", .num 5), ("examples", .num 5)])] := by
  exact json_extraction_idempotent evalSample [Tok.text "no json here"]
    [Tok.lbrace, Tok.rbrace, Tok.rbrace] rfl
    (fun j hj => by
      rw [show extractJson [Tok.lbrace, Tok.rbrace, Tok.rbrace] =
        some [Tok.lbrace, Tok.rbrace, Tok.rbrace] from rfl] at hj
      cases hj
      rfl)

/-- A concrete valid evaluate request. -/
def evalReqSample : EvalRequest :=
  { question := some "Explain the virtual dom in React",
    transcript := some "It is a tree kept in memory",
    techStack := some "React", code := none, codeLanguage := none }

/-- C3 (counterexample): the claim says a failing primary LLM call makes the
evaluation operation return the keyword-overlap heuristic result instead of
propagating an error.  With a valid request and a failing Cohere call the
handler returns a 500 `ErrorResponse` — in particular not a success
carrying the heuristic evaluation of the same inputs. -/
theorem evaluate_failure_returns_error_not_fallback :
    evaluateAnswer evalReqSample true (.error "network down")
      = .serverError "Cohere AI evaluation failed: network down. Please check your Cohere API key and try again."
    ∧ evaluateAnswer evalReqSample true (.error "network down")
      ≠ .ok (evalJVal (createFallbackEvaluation
          "Explain the virtual dom in React"
          (some "It is a tree kept in memory") (some "React") none))
        "fallback" := by
  have h : evaluateAnswer evalReqSample true (.error "network down")
      = .serverError "Cohere AI evaluation failed: network down. Please check your Cohere API key and try again." := rfl
  exact ⟨h, by rw [h]; simp⟩

/-- C3 (amended): when the primary Cohere call fails, the server's evaluate
handler propagates a 500 error to the caller and never returns a success
payload; the deterministic keyword-overlap heuristic
(`createFallbackEvaluation`) exists as a pure function needing no external
calls, applies the short-answer/greeting penalty before any weighting, but
is not invoked on this failure path. -/
theorem evaluate_failure_propagates (req : EvalRequest) (msg : String)
    (hq : truthy req.question = true)
    (ht : truthy req.transcript = true ∨ truthy req.code = true) :
    (evaluateAnswer req true (.error msg)
      = .serverError ("Cohere AI evaluation failed: " ++ msg
        ++ ". Please check your Cohere API key and try again."))
    ∧ (∀ d m, evaluateAnswer req true (.error msg) ≠ .ok d m)
    ∧ (∀ (q : String) (t ts c : Option String),
        shortCircuitGuard (normalizeOpt t) = true →
        (createFallbackEvaluation q t ts c).score = 1
        ∧ (createFallbackEvaluation q t ts c).criteria = ⟨1, 1, 1, 1⟩) := by
  have hval : (!(truthy req.question)
      || (!(truthy req.transcript) && !(truthy req.code))) = false := by
    rcases ht with h | h <;> simp [hq, h]
  refine ⟨?_, ?_, ?_⟩
  · simp [evaluateAnswer, hval]
  · intro d m
    simp [evaluateAnswer, hval]
  · intro q t ts c hg
    exact fallbackEval_of_guard q t ts c hg

/-- C3 (witness): at the concrete request with a failing Cohere call the
handler returns the 500 error, and the heuristic — evaluated on the greeting
transcript `"hi"` — scores 1. -/
theorem evaluate_failure_propagates_witness :
    (evaluateAnswer evalReqSample true (.error "boom")
      = .serverError ("Cohere AI evaluation failed: " ++ "boom"
        ++ ". Please check your Cohere API key and try again."))
    ∧ (createFallbackEvaluation "What is React?" (some "hi") none none).score
      = 1 := by
  exact ⟨(evaluate_failure_propagates evalReqSample "boom" (by decide)
      (Or.inl (by decide))).1,
    ((evaluate_failure_propagates evalReqSample "boom" (by decide)
      (Or.inl (by decide))).2.2 "What is React?" (some "hi") none none
      (by decide)).1⟩

end AiInterview

namespace AiInterview

/-! ## Client interview session: timers and progress
(`src/pages/Interview.tsx`) -/

/-- The timer-owned state of the interview page, plus counters for the
toasts the timer callbacks fire. -/
structure TimerState where
  timeRemaining : Int
  autoSubmitCountdown : Int
  isAnswering : Bool
  hasTimerStarted : Bool
  timerWarning : Bool
  thirtySecWarnings : Nat
  timeUpToasts : Nat
deriving DecidableEq, Repr

/-- An answer held in the page's `localAnswers` array. -/
structure PageAnswer where
  questionId : String
  transcript : String
  code : String
  audioUrl : String
  score : Option ℚ
deriving DecidableEq, Repr

/-- The session state of the interview page: timers plus progress
(current index, answered-question set, locally held answers). -/
structure SessionState where
  timer : TimerState
  currentQuestionIndex : Nat
  answeredQuestions : List String
  localAnswers : List PageAnswer
deriving DecidableEq, Repr

/-- One tick of the main `setInterval` in `handleStartAnswering`:
decrement, fire the one-time warning exactly when the new time is 30, start
the 5-second grace countdown when the new time reaches 0, clamp at 0. -/
def timerTick (t : TimerState) : TimerState :=
  let newTime := t.timeRemaining - 1
  let t := if newTime = 30 then
    { t with
      timerWarning := true,
      thirtySecWarnings := t.thirtySecWarnings + 1 } else t
  let t := if newTime ≤ 0 then { t with autoSubmitCountdown := 5 } else t
  { t with timeRemaining := max 0 newTime }

/-- `handleTimeUp`: toast the time's-up warning and leave the answering
state; nothing else is touched — in particular no answer is recorded. -/
def handleTimeUp (t : TimerState) : TimerState :=
  { t with
    isAnswering := false, hasTimerStarted := false,
    timeUpToasts := t.timeUpToasts + 1 }

/-- One tick of the grace-period `setInterval`: decrement the auto-submit
countdown; on reaching 0 clear the interval and run `handleTimeUp`. -/
def graceTick (t : TimerState) : TimerState :=
  let newCount := t.autoSubmitCountdown - 1
  if newCount ≤ 0 then handleTimeUp { t with autoSubmitCountdown := 0 }
  else { t with autoSubmitCountdown := newCount }

/-- The timer ticks only touch the timer substate of the session. -/
def sessionTimerTick (s : SessionState) : SessionState :=
  { s with timer := timerTick s.timer }

/-- The grace ticks only touch the timer substate of the session. -/
def sessionGraceTick (s : SessionState) : SessionState :=
  { s with timer := graceTick s.timer }

/-- `handleStartAnswering`: reset the clock to 120 and enter the answering
state (the interval it installs is modelled by `sessionTimerTick`). -/
def handleStartAnswering (s : SessionState) : SessionState :=
  { s with
    timer := { s.timer with
      timeRemaining := 120, isAnswering := true, hasTimerStarted := true } }

/-- `new Set(prev).add(id)` on the answered-question set. -/
def insertAnswered (l : List String) (qid : String) : List String :=
  if qid ∈ l then l else l ++ [qid]

/-- Replace-or-append of the page's `localAnswers` array:
`[...prev.filter(a => a.questionId !== id), localAnswer]`. -/
def replaceLocalAnswer (l : List PageAnswer) (a : PageAnswer) :
    List PageAnswer :=
  l.filter (fun x => x.questionId ≠ a.questionId) ++ [a]

/-- The session-state effects of `handleRecordingComplete(audioBlob,
transcript)` for the current question: store the local answer built from
the (possibly empty) transcript and the code editor contents, then add the
question to `answeredQuestions` — both unconditional. -/
def handleRecordingComplete (s : SessionState) (qid : String)
    (transcript code : String) (score : Option ℚ) : SessionState :=
  { s with
    localAnswers := replaceLocalAnswer s.localAnswers
      { questionId := qid, transcript := transcript, code := code,
        audioUrl := "blob:local", score := score },
    answeredQuestions := insertAnswered s.answeredQuestions qid }

/-- The session-state effects of `handleSaveResponse` for the current
question: store the local answer from the previously captured recording (or
empty strings when there is none) and mark the question answered — again
unconditional. -/
def handleSaveResponse (s : SessionState) (qid : String)
    (transcript code : String) : SessionState :=
  { s with
    localAnswers := replaceLocalAnswer s.localAnswers
      { questionId := qid, transcript := transcript, code := code,
        audioUrl := "", score := none },
    answeredQuestions := insertAnswered s.answeredQuestions qid }

/-- The `autoSubmitCountdown` effect: when the countdown is at 0 while still
in the answering state with no time left, it submits via
`handleRecordingComplete(new Blob(), '')` — an empty recording and an empty
transcript. -/
def autoSubmitStep (s : SessionState) (qid : String) (code : String) :
    SessionState :=
  if s.timer.autoSubmitCountdown == 0 && s.timer.isAnswering
      && s.timer.timeRemaining == 0 then
    handleRecordingComplete s qid "" code none
  else s

/-- The freshly started timer state installed by `handleStartAnswering`. -/
def timerStart : TimerState :=
  { timeRemaining := 120, autoSubmitCountdown := 0, isAnswering := true,
    hasTimerStarted := true, timerWarning := false, thirtySecWarnings := 0,
    timeUpToasts := 0 }

end AiInterview

namespace AiInterview

/-- Iterating the main-timer tick on the session only iterates the timer
substate. -/
theorem sessionTimerTick_iterate (n : Nat) (s : SessionState) :
    sessionTimerTick^[n] s = { s with timer := timerTick^[n] s.timer } := by
  induction n with
  | zero => rfl
  | succ n ih =>
    rw [Function.iterate_succ_apply', ih, Function.iterate_succ_apply']
    rfl

/-- Iterating the grace tick on the session only iterates the timer
substate. -/
theorem sessionGraceTick_iterate (n : Nat) (s : SessionState) :
    sessionGraceTick^[n] s = { s with timer := graceTick^[n] s.timer } := by
  induction n with
  | zero => rfl
  | succ n ih =>
    rw [Function.iterate_succ_apply', ih, Function.iterate_succ_apply']
    rfl

set_option maxRecDepth 8000 in
/-- C8: starting from a freshly started question timer (120 seconds,
answering), after the 120 main ticks and the 5 grace ticks run out with no
save, the session is back in the pending state (answering and timer flags
cleared) for the same question: the question index, the answered-question
set and the locally held answers are all unchanged, exactly one
30-seconds-remaining warning was fired (at the tick reaching 30), and one
time's-up toast. -/
theorem timer_expiry_returns_to_pending (s : SessionState)
    (h : s.timer = timerStart) :
    (sessionGraceTick^[5] (sessionTimerTick^[120] s)).timer
      = { timeRemaining := 0, autoSubmitCountdown := 0, isAnswering := false,
          hasTimerStarted := false, timerWarning := true,
          thirtySecWarnings := 1, timeUpToasts := 1 }
    ∧ (sessionGraceTick^[5]
        (sessionTimerTick^[120] s)).currentQuestionIndex
      = s.currentQuestionIndex
    ∧ (sessionGraceTick^[5] (sessionTimerTick^[120] s)).answeredQuestions
      = s.answeredQuestions
    ∧ (sessionGraceTick^[5] (sessionTimerTick^[120] s)).localAnswers
      = s.localAnswers := by
  rw [sessionTimerTick_iterate, sessionGraceTick_iterate, h]
  refine ⟨?_, rfl, rfl, rfl⟩
  show graceTick^[5] (timerTick^[120] timerStart) = _
  decide

/-- C8 (witness): the run at a concrete session two questions in, with one
question answered. -/
theorem timer_expiry_returns_to_pending_witness :
    (sessionGraceTick^[5] (sessionTimerTick^[120]
        ⟨timerStart, 2, ["q0"], []⟩)).timer
      = { timeRemaining := 0, autoSubmitCountdown := 0, isAnswering := false,
          hasTimerStarted := false, timerWarning := true,
          thirtySecWarnings := 1, timeUpToasts := 1 }
    ∧ (sessionGraceTick^[5] (sessionTimerTick^[120]
        ⟨timerStart, 2, ["q0"], []⟩)).currentQuestionIndex = 2
    ∧ (sessionGraceTick^[5] (sessionTimerTick^[120]
        ⟨timerStart, 2, ["q0"], []⟩)).answeredQuestions = ["q0"]
    ∧ (sessionGraceTick^[5] (sessionTimerTick^[120]
        ⟨timerStart, 2, ["q0"], []⟩)).localAnswers = [] :=
  timer_expiry_returns_to_pending ⟨timerStart, 2, ["q0"], []⟩ rfl

end AiInterview

namespace AiInterview

/-- A session whose question timer and grace countdown have both expired
while still in the answering state (the guard of the auto-submit effect). -/
def sessExpired : SessionState :=
  { timer := { timeRemaining := 0
               autoSubmitCountdown := 0
               isAnswering := true
               hasTimerStarted := true
               timerWarning := true
               thirtySecWarnings := 1
               timeUpToasts := 0 },
    currentQuestionIndex := 0, answeredQuestions := [], localAnswers := [] }

/-- C4 (counterexample): the claim says a question with neither transcript
nor code is never added to `answeredQuestions` by any pipeline path.  But
the timer-expiry auto-submit effect calls `handleRecordingComplete` with an
empty blob and an empty transcript and (with the code editor hidden) an
empty code string, and that handler — like `handleSaveResponse` — adds the
question unconditionally: the empty answer is counted as answered. -/
theorem empty_answer_marked_answered :
    (autoSubmitStep sessExpired "q1" "").answeredQuestions = ["q1"]
    ∧ ((autoSubmitStep sessExpired "q1" "").localAnswers.map
        (fun a => (a.transcript, a.code))) = [("", "")]
    ∧ (handleSaveResponse sessExpired "q1" "" "").answeredQuestions
      = ["q1"] := by
  decide

/-- C4 (amended): the timer ticks and the grace-expiry handler
(`handleTimeUp`) indeed record no answer and leave `answeredQuestions`
unchanged; but the save paths — `handleRecordingComplete` (which the
auto-submit effect invokes with an empty transcript when the grace countdown
hits 0 in the answering state) and `handleSaveResponse` — add the current
question to `answeredQuestions` unconditionally, independent of whether a
transcript or code is present. -/
theorem answered_set_behaviour (s : SessionState) (qid : String)
    (t c : String) (sc : Option ℚ) :
    ((sessionTimerTick s).answeredQuestions = s.answeredQuestions
      ∧ (sessionTimerTick s).localAnswers = s.localAnswers
      ∧ (sessionGraceTick s).answeredQuestions = s.answeredQuestions
      ∧ (sessionGraceTick s).localAnswers = s.localAnswers)
    ∧ qid ∈ (handleRecordingComplete s qid t c sc).answeredQuestions
    ∧ qid ∈ (handleSaveResponse s qid t c).answeredQuestions
    ∧ (s.timer.autoSubmitCountdown = 0 → s.timer.isAnswering = true →
        s.timer.timeRemaining = 0 →
        autoSubmitStep s qid c = handleRecordingComplete s qid "" c none) := by
  refine ⟨⟨rfl, rfl, rfl, rfl⟩, ?_, ?_, ?_⟩
  · by_cases hmem : qid ∈ s.answeredQuestions <;>
      simp [handleRecordingComplete, insertAnswered, hmem]
  · by_cases hmem : qid ∈ s.answeredQuestions <;>
      simp [handleSaveResponse, insertAnswered, hmem]
  · intro h1 h2 h3
    simp [autoSubmitStep, h1, h2, h3]

/-- C4 (witness): the amended statement at the expired session for question
`"q2"` with empty transcript and code. -/
theorem answered_set_behaviour_witness :
    (((sessionTimerTick sessExpired).answeredQuestions
        = sessExpired.answeredQuestions
      ∧ (sessionTimerTick sessExpired).localAnswers
        = sessExpired.localAnswers
      ∧ (sessionGraceTick sessExpired).answeredQuestions
        = sessExpired.answeredQuestions
      ∧ (sessionGraceTick sessExpired).localAnswers
        = sessExpired.localAnswers)
    ∧ "q2" ∈ (handleRecordingComplete sessExpired "q2" "" ""
        none).answeredQuestions
    ∧ "q2" ∈ (handleSaveResponse sessExpired "q2" "" "").answeredQuestions
    ∧ (sessExpired.timer.autoSubmitCountdown = 0 →
        sessExpired.timer.isAnswering = true →
        sessExpired.timer.timeRemaining = 0 →
        autoSubmitStep sessExpired "q2" ""
          = handleRecordingComplete sessExpired "q2" "" "" none)) :=
  answered_set_behaviour sessExpired "q2" "" "" none

end AiInterview

namespace AiInterview

/-! ## Client answer assembly and persistence
(`saveAnswer` in `src/context/InterviewContext.tsx`) -/

/-- `mockEvaluateAnswer`: the client's backup evaluation used when the
evaluate API call fails.  `Math.floor(Math.random() * 5) + 6)` is modelled
by the random draw `rand : Fin 5`; it returns a score between 6 and 10 with
canned feedback and no criteria. -/
def mockEvaluateAnswer (rand : Fin 5) : ℚ × String :=
  let score : ℚ := (rand : ℕ) + 6
  let feedback :=
    if 9 ≤ score then
      "Excellent answer that demonstrates deep understanding of the concept. The explanation was clear, comprehensive, and included relevant examples."
    else if 7 ≤ score then
      "Good answer that covers the main points. Some additional detail or examples would have strengthened the response."
    else
      "Satisfactory answer that addresses the basic concept. The explanation could be more precise and include more technical details."
  (score, feedback)

/-- `transcript.trim().split(/\s+/).length`: contrary to the evaluator's
filtered count, a blank transcript still splits into one (empty) part. -/
def trimmedSplitCount (t : String) : Nat :=
  let w := wordCountOf t
  if w = 0 then 1 else w

/-- Index of the first occurrence of `sub` in `hay`, if any. -/
def indexOfAux (sub : List Char) : List Char → Option Nat
  | [] => if sub.isEmpty then some 0 else none
  | c :: cs =>
    if listPrefix sub (c :: cs) then some 0
    else (indexOfAux sub cs).map (· + 1)

/-- The code-assessment extraction regex
`/(?:Code Assessment|Code evaluation|Code submission|Code analysis):([\s\S]*?)(?=\n\n|$)/i`
applied to the feedback: the whole match from the earliest label up to the
first blank line (or the end). -/
def extractCodeEval (feedback : String) : Option String :=
  let fl := (toLowerStr feedback).toList
  let hits := (["code assessment:", "code evaluation:", "code submission:",
    "code analysis:"].filterMap (fun l => indexOfAux l.toList fl))
  match hits.min? with
  | none => none
  | some i =>
    let tail := feedback.toList.drop i
    match indexOfAux "\n\n".toList tail with
    | none => some (String.mk tail)
    | some j => some (String.mk (tail.take j))

/-- The answer object kept in the context's local interview state. -/
structure CtxAnswer where
  questionId : String
  audioUrl : String
  transcript : String
  code : String
  codeLanguage : String
  codeEvaluation : String
  score : Option ℚ
  feedback : Option String
  criteria : Option Criteria
deriving DecidableEq, Repr

/-- The body of the `answerAPI.create` call issued by `saveAnswer`. -/
structure CreateCall where
  interview : String
  question : String
  transcript : String
  audioUrl : String
  code : String
  codeLanguage : String
  score : Option ℚ
  feedback : String
  criteria : Criteria
deriving DecidableEq, Repr

/-- What one `saveAnswer` run did: the answer written to local state, the
create calls attempted, whether server persistence succeeded, and the
toasts fired (`persistWarnings` counts the warning
`Answer saved locally but failed to store on server`). -/
structure SaveTrace where
  localAnswer : CtxAnswer
  createAttempts : List CreateCall
  persisted : Bool
  persistWarnings : Nat
  qualityWarnings : Nat
  errorToasts : Nat
deriving DecidableEq, Repr

/-- The sentinel transcript substituted when transcription fails. -/
def transcriptionFailedSentinel : String :=
  "[TRANSCRIPTION FAILED] Unable to transcribe audio. Please check audio quality or try again."

/-- `saveAnswer(interviewId, questionId, audioBlob, transcript?, code?,
codeLanguage?)` from `InterviewContext.tsx`, as a function of the outcomes
of its external calls: `transcribeOutcome` (the transcription API, used only
when no transcript was passed), `evalOutcome` (the evaluate API: evaluation
data plus its `evaluationMethod` tag), `rand` (the draw of the mock backup
evaluation), `uploadOutcome` (the audio upload) and `createOutcome` (the
answer-create API).  The upload and the create call sit in one `try` block:
an upload failure skips the create call entirely, fires the single
save-warning toast, and leaves only the local answer (the paid-mode
transcription branch is modelled; the free-mode branch differs only in not
treating an empty transcription result as a failure). -/
def saveAnswer (interviewId qid : String)
    (transcript code codeLanguage : Option String)
    (transcribeOutcome : Except Unit String)
    (evalOutcome : Except Unit (Evaluation × String)) (rand : Fin 5)
    (uploadOutcome : Except Unit String) (createOutcome : Except Unit Unit) :
    SaveTrace :=
  let (finalTranscript, transcriptionErrorToasts) :=
    if truthy transcript then (transcript.getD "", 0)
    else
      match transcribeOutcome with
      | .ok t => if t.isEmpty then (transcriptionFailedSentinel, 1)
          else (t, 0)
      | .error _ => (transcriptionFailedSentinel, 1)
  let qualityWarnings :=
    if trimmedSplitCount finalTranscript < 5
        && !(strIncludes finalTranscript "[TRANSCRIPTION FAILED]") then 1
    else 0
  let (score, feedback, criteria, evalErrorToasts) :=
    match evalOutcome with
    | .ok (e, method) =>
      let fb :=
        if method == "cohere" then "[EVALUATED BY COHERE AI] \n\n" ++ e.feedback
        else if method == "fallback" then
          "[EVALUATED BY FALLBACK SYSTEM] \n\n" ++ e.feedback
        else e.feedback
      (some e.score, some fb, some e.criteria, 0)
    | .error _ =>
      let m := mockEvaluateAnswer rand
      (some m.1, some ("[MOCK EVALUATION] " ++ m.2
        ++ "\n\nNote: This is an auto-generated mock evaluation because the AI evaluation service failed."),
       (none : Option Criteria), 1)
  let codeEvaluation :=
    if truthy code ∧ feedback.isSome then
      match extractCodeEval (feedback.getD "") with
      | some section0 => section0
      | none => "Code was evaluated as part of the overall response."
    else ""
  let localAnswer : CtxAnswer :=
    { questionId := qid, audioUrl := "blob:local",
      transcript := finalTranscript, code := code.getD "",
      codeLanguage := codeLanguage.getD "",
      codeEvaluation := codeEvaluation, score := score,
      feedback := feedback, criteria := criteria }
  let errorToasts := transcriptionErrorToasts + evalErrorToasts
  match uploadOutcome with
  | .error _ =>
    { localAnswer := localAnswer, createAttempts := [], persisted := false,
      persistWarnings := 1, qualityWarnings := qualityWarnings,
      errorToasts := errorToasts }
  | .ok fileUrl =>
    let call : CreateCall :=
      { interview := interviewId, question := qid,
        transcript := finalTranscript, audioUrl := fileUrl,
        code := code.getD "", codeLanguage := codeLanguage.getD "javascript",
        score := score, feedback := feedback.getD "",
        criteria := criteria.getD ⟨0, 0, 0, 0⟩ }
    match createOutcome with
    | .ok _ =>
      { localAnswer := localAnswer, createAttempts := [call],
        persisted := true, persistWarnings := 0,
        qualityWarnings := qualityWarnings, errorToasts := errorToasts }
    | .error _ =>
      { localAnswer := localAnswer, createAttempts := [call],
        persisted := false, persistWarnings := 1,
        qualityWarnings := qualityWarnings, errorToasts := errorToasts }

end AiInterview

namespace AiInterview

/-- C7 (counterexample): the claim says that when the audio upload fails the
Answer is still persisted, with `audioUrl = ""` and transcript/score
populated.  In a run with a populated transcript and a successful
evaluation but a failing upload, the `saveAnswer` pipeline issues no create
call at all — the upload and the create sit in one `try` block, so the
upload failure aborts server persistence (only the local answer and one
warning remain). -/
theorem upload_failure_skips_persistence :
    (saveAnswer "i1" "q1" (some "It keeps a virtual dom tree in memory")
      none none (.ok "") (.ok (evalSample, "cohere")) 0 (.error ())
      (.ok ())).createAttempts = []
    ∧ (saveAnswer "i1" "q1" (some "It keeps a virtual dom tree in memory")
      none none (.ok "") (.ok (evalSample, "cohere")) 0 (.error ())
      (.ok ())).persisted = false
    ∧ (saveAnswer "i1" "q1" (some "It keeps a virtual dom tree in memory")
      none none (.ok "") (.ok (evalSample, "cohere")) 0 (.error ())
      (.ok ())).persistWarnings = 1 := by
  exact ⟨rfl, rfl, rfl⟩

/-- C7 (amended): when the audio upload fails during `saveAnswer`, the
Answer is not persisted server-side at all — no create call is attempted —
while the local in-memory Answer keeps the transcript and the evaluation's
score, and exactly one save-failure warning is surfaced; the upload failure
aborts only the persistence step, not the local save or the evaluation. -/
theorem save_upload_failure_behaviour (iid qid : String)
    (transcript code codeLanguage : Option String)
    (tro : Except Unit String) (e : Evaluation) (method : String)
    (rand : Fin 5) (co : Except Unit Unit)
    (htr : truthy transcript = true) :
    (saveAnswer iid qid transcript code codeLanguage tro (.ok (e, method))
      rand (.error ()) co).createAttempts = []
    ∧ (saveAnswer iid qid transcript code codeLanguage tro (.ok (e, method))
      rand (.error ()) co).persisted = false
    ∧ (saveAnswer iid qid transcript code codeLanguage tro (.ok (e, method))
      rand (.error ()) co).persistWarnings = 1
    ∧ (saveAnswer iid qid transcript code codeLanguage tro (.ok (e, method))
      rand (.error ()) co).localAnswer.transcript = transcript.getD ""
    ∧ (saveAnswer iid qid transcript code codeLanguage tro (.ok (e, method))
      rand (.error ()) co).localAnswer.score = some e.score := by
  refine ⟨?_, ?_, ?_, ?_, ?_⟩ <;> simp [saveAnswer, htr]

/-- C7 (witness): the amended statement at a concrete run — transcript
present, successful Cohere evaluation, failing upload. -/
theorem save_upload_failure_behaviour_witness :
    (saveAnswer "i1" "q1" (some "It keeps a virtual dom tree in memory")
      none none (.ok "") (.ok (evalSample, "cohere")) 0 (.error ())
      (.ok ())).createAttempts = []
    ∧ (saveAnswer "i1" "q1" (some "It keeps a virtual dom tree in memory")
      none none (.ok "") (.ok (evalSample, "cohere")) 0 (.error ())
      (.ok ())).persisted = false
    ∧ (saveAnswer "i1" "q1" (some "It keeps a virtual dom tree in memory")
      none none (.ok "") (.ok (evalSample, "cohere")) 0 (.error ())
      (.ok ())).persistWarnings = 1
    ∧ (saveAnswer "i1" "q1" (some "It keeps a virtual dom tree in memory")
      none none (.ok "") (.ok (evalSample, "cohere")) 0 (.error ())
      (.ok ())).localAnswer.transcript
      = (some "It keeps a virtual dom tree in memory").getD ""
    ∧ (saveAnswer "i1" "q1" (some "It keeps a virtual dom tree in memory")
      none none (.ok "") (.ok (evalSample, "cohere")) 0 (.error ())
      (.ok ())).localAnswer.score = some evalSample.score :=
  save_upload_failure_behaviour "i1" "q1"
    (some "It keeps a virtual dom tree in memory") none none (.ok "")
    evalSample "cohere" 0 (.ok ()) (by decide)

end AiInterview
